import Mathlib

/-!
Verification of the PPK (public/private key pair) core of
`packages/lib/services/e2ee/ppk.ts`.

The cryptographic collaborators (the node-rsa asymmetric provider and the
symmetric Encryption Service) are modelled symbolically: a byte/text blob is a
`Msg` term, symmetric and asymmetric encryption are constructors, and
decryption is the matching partial inverse that fails exactly when the key
material does not match.  All functions of `ppk.ts` are translated directly;
JavaScript exceptions become `Except PpkError`.
-/

/-- Symmetric encryption methods of the Encryption Service.  `SJCL4` is the
named password-based method used to protect exported private keys; `SJCL1a`
stands for the service's default master-key method; `Custom` marks content
protected through a custom handler. -/
inductive EncryptionMethod where
  | SJCL4
  | SJCL1a
  | Custom
  deriving DecidableEq, Repr

/-- Symbolic byte/text blobs flowing through the system.
`str` is plain text (or hex-encoded bytes); `privPem`/`pubPem` are the
PKCS#1 PEM exports of the RSA pair identified by `kid`; `symEnc` is the
Encryption Service's symmetric ciphertext; `rsaEnc` is an RSA-OAEP
ciphertext under the pair `kid`; `jsonEnv` is the JSON-serialized handler
envelope `\x7b ppkId, scheme, ciphertext \x7d` (fields may be absent in a
parsed blob, hence `Option`). -/
inductive Msg where
  | str : String → Msg
  | privPem : Nat → Msg
  | pubPem : Nat → Msg
  | symEnc : EncryptionMethod → String → Msg → Msg
  | rsaEnc : Nat → Msg → Msg
  | jsonEnv : Option String → Option String → Msg → Msg
  deriving DecidableEq, Repr

/-- Reading a decrypted blob as a UTF-8 string (node-rsa's
`decrypt(..., 'utf8')`): textual blobs give their text; non-textual key or
ciphertext material has no meaningful UTF-8 reading and is rendered opaque. -/
def Msg.toUtf8 : Msg → String
  | .str s => s
  | _ => ""

/-- Errors thrown by the PPK core or its collaborators. -/
inductive PpkError where
  /-- 'No private key was generated' (KeyGenerationError). -/
  | noPrivateKeyGenerated
  /-- 'No public key was generated' (KeyGenerationError). -/
  | noPublicKeyGenerated
  /-- 'PPK is undefined'. -/
  | ppkUndefined
  /-- 'Needs private key {envelopeId} to decrypt, but using {handlerId}'
  (KeyMismatchError); carries the envelope's embedded id (absent when the
  parsed envelope has no `ppkId` field) and the handler's own id. -/
  | keyMismatch (envelopeId : Option String) (handlerId : String)
  /-- Encryption Service symmetric decryption failure (wrong password or
  corrupt ciphertext). -/
  | decryptionFailed
  /-- node-rsa decrypt called on a handle with no private key. -/
  | rsaNoPrivateKey
  /-- node-rsa encrypt called on a handle with no public key. -/
  | rsaNoPublicKey
  /-- node-rsa decryption failure (ciphertext not under this key). -/
  | rsaDecryptFailed
  /-- node-rsa importKey given material in the wrong format. -/
  | rsaImportFailed
  /-- Envelope text does not parse as the expected structure. -/
  | malformedEnvelope
  /-- Master key entity has no encrypted content to decrypt. -/
  | masterKeyContentMissing
  /-- 'Master password is not set' (getMasterPassword with throwIfNotSet). -/
  | masterPasswordNotSet
  deriving DecidableEq, Repr

/-- A node-rsa handle: optional private and public components, each
identifying an underlying RSA pair by `kid`.  (`new NodeRSA()` starts empty;
OAEP padding is fixed by `setOptions` and abstracted into `Msg.rsaEnc`.) -/
structure NodeRSA where
  priv : Option Nat
  pub : Option Nat
  deriving DecidableEq, Repr

def NodeRSA.empty : NodeRSA := { priv := none, pub := none }

def NodeRSA.isPrivate (k : NodeRSA) : Bool := k.priv.isSome

def NodeRSA.isPublic (k : NodeRSA) : Bool := k.pub.isSome

/-- PEM key formats used by `ppk.ts`. -/
inductive KeyFormat where
  | pkcs1PublicPem
  | pkcs1PrivatePem
  deriving DecidableEq, Repr

/-- node-rsa `importKey(material, format)`: importing a private PEM loads the
full pair (both halves); importing a public PEM loads only the public half.
Material in the wrong format throws. -/
def NodeRSA.importKeyM (k : NodeRSA) (material : Msg) (format : KeyFormat) :
    Except PpkError NodeRSA :=
  match format, material with
  | .pkcs1PublicPem, .pubPem kid => .ok { k with pub := some kid }
  | .pkcs1PrivatePem, .privPem kid => .ok { priv := some kid, pub := some kid }
  | _, _ => .error .rsaImportFailed

/-- node-rsa `exportKey(format)`. -/
def NodeRSA.exportKeyM (k : NodeRSA) (format : KeyFormat) : Except PpkError Msg :=
  match format with
  | .pkcs1PrivatePem =>
    match k.priv with
    | some kid => .ok (.privPem kid)
    | none => .error .rsaNoPrivateKey
  | .pkcs1PublicPem =>
    match k.pub with
    | some kid => .ok (.pubPem kid)
    | none => .error .rsaNoPublicKey

/-- node-rsa `encrypt(hexaBytes, 'hex')`: OAEP-encrypts under the public
component; throws without a public key. -/
def NodeRSA.encryptM (k : NodeRSA) (m : Msg) : Except PpkError Msg :=
  match k.pub with
  | some kid => .ok (.rsaEnc kid m)
  | none => .error .rsaNoPublicKey

/-- node-rsa `decrypt(buffer, 'utf8')`: OAEP-decrypts under the private
component; throws without a private key, or when the ciphertext is not an
RSA ciphertext under this key. -/
def NodeRSA.decryptM (k : NodeRSA) (ct : Msg) : Except PpkError Msg :=
  match k.priv with
  | none => .error .rsaNoPrivateKey
  | some kid =>
    match ct with
    | .rsaEnc kid2 m => if kid2 = kid then .ok m else .error .rsaDecryptFailed
    | _ => .error .rsaDecryptFailed

/-- Modelled from the spec: the Encryption Service's password-based
`encrypt(method, password, plaintext)` (the service itself,
`EncryptionService.ts`, is outside the provided sources).  Symbolically the
ciphertext records the method, password and plaintext. -/
def serviceEncrypt (method : EncryptionMethod) (password : String) (plainText : Msg) : Msg :=
  .symEnc method password plainText

/-- Modelled from the spec: the Encryption Service's
`decrypt(method, password, ciphertext)`; fails with a `DecryptionError` on a
wrong password, wrong method or corrupt ciphertext. -/
def serviceDecrypt (method : EncryptionMethod) (password : String) (ct : Msg) :
    Except PpkError Msg :=
  match ct with
  | .symEnc m p x =>
    if m = method ∧ p = password then .ok x else .error .decryptionFailed
  | _ => .error .decryptionFailed

/-- `interface PrivateKey` of ppk.ts. -/
structure PrivateKey where
  encryptionMethod : EncryptionMethod
  ciphertext : Msg
  deriving DecidableEq, Repr

/-- `type PublicKey = string` — exported PEM text. -/
abbrev PublicKey := Msg

/-- `interface PublicPrivateKeyPair` of ppk.ts. -/
structure PublicPrivateKeyPair where
  id : String
  publicKey : PublicKey
  privateKey : PrivateKey
  createdTime : Nat
  deriving DecidableEq, Repr

/-- `encryptPrivateKey`: encrypts the exported private key text with the
SJCL4 password-based method. -/
def encryptPrivateKey (password : String) (plainText : Msg) : PrivateKey :=
  { encryptionMethod := .SJCL4
    ciphertext := serviceEncrypt .SJCL4 password plainText }

/-- `decryptPrivateKey`. -/
def decryptPrivateKey (encryptedKey : PrivateKey) (password : String) :
    Except PpkError Msg :=
  serviceDecrypt encryptedKey.encryptionMethod password encryptedKey.ciphertext

/-- `const nodeRSAEncryptionScheme = 'pkcs1_oaep'`. -/
def nodeRSAEncryptionScheme : String := "pkcs1_oaep"

/-- The Asymmetric Key Provider's `generateKeyPair(bits, exponent)`
(node-rsa's key generation), abstracted as an oracle so that the request
parameters and a defective provider can be expressed. -/
structure AsymProvider where
  genKeyPair : Nat → Nat → NodeRSA

/-- `generateKeyPair(encryptionService, password)`.  `freshId` stands for
`uuid.createNano()` and `now` for `Date.now()`; there is no other effect. -/
def generateKeyPair (provider : AsymProvider) (freshId : String) (now : Nat)
    (password : String) : Except PpkError PublicPrivateKeyPair :=
  let keys := provider.genKeyPair 2048 65537
  if keys.isPrivate = false then .error .noPrivateKeyGenerated
  else if keys.isPublic = false then .error .noPublicKeyGenerated
  else do
    let privatePem ← keys.exportKeyM .pkcs1PrivatePem
    let publicPem ← keys.exportKeyM .pkcs1PublicPem
    return { id := freshId
             privateKey := encryptPrivateKey password privatePem
             publicKey := publicPem
             createdTime := now }

/-- `loadPpk`: fresh handle, import the public PEM, decrypt and import the
private PEM. -/
def loadPpk (ppk : PublicPrivateKeyPair) (password : String) :
    Except PpkError NodeRSA := do
  let keys := NodeRSA.empty
  let keys ← keys.importKeyM ppk.publicKey .pkcs1PublicPem
  let privatePem ← decryptPrivateKey ppk.privateKey password
  keys.importKeyM privatePem .pkcs1PrivatePem

/-- `loadPublicKey`: fresh handle, import only the public PEM. -/
def loadPublicKey (publicKey : PublicKey) : Except PpkError NodeRSA :=
  NodeRSA.empty.importKeyM publicKey .pkcs1PublicPem

/-- `ppkPasswordIsValid(service, ppk, password)`.  The key-pair argument is
optional to model a JavaScript `undefined`/`null`; the `try/catch` around
`loadPpk` converts any of its failures into `false`. -/
def ppkPasswordIsValid (ppk : Option PublicPrivateKeyPair) (password : String) :
    Except PpkError Bool :=
  match ppk with
  | none => .error .ppkUndefined
  | some ppk =>
    match loadPpk ppk password with
    | .error _ => .ok false
    | .ok _ => .ok true

/-- The handler's closed-over context `\x7b nodeRSA, ppkId \x7d`. -/
structure HandlerContext where
  nodeRSA : NodeRSA
  ppkId : String
  deriving DecidableEq, Repr

/-- `ppkEncryptionHandler(...).encrypt`: RSA-encrypts the hex bytes and
serializes the envelope `\x7b ppkId, scheme, ciphertext \x7d`. -/
def handlerEncrypt (context : HandlerContext) (hexaBytes : String) :
    Except PpkError Msg := do
  let ct ← context.nodeRSA.encryptM (.str hexaBytes)
  return .jsonEnv (some context.ppkId) (some nodeRSAEncryptionScheme) ct

/-- `ppkEncryptionHandler(...).decrypt`: parses the envelope, throws a
key-mismatch error when the embedded `ppkId` differs from the handler's own
id, otherwise RSA-decrypts the embedded ciphertext and returns it as UTF-8. -/
def handlerDecrypt (context : HandlerContext) (ciphertext : Msg) :
    Except PpkError String :=
  match ciphertext with
  | .jsonEnv parsedPpkId _parsedScheme parsedCt =>
    if parsedPpkId ≠ some context.ppkId then
      .error (.keyMismatch parsedPpkId context.ppkId)
    else
      (context.nodeRSA.decryptM parsedCt).map Msg.toUtf8
  | _ => .error .malformedEnvelope

/-- Modelled from the spec: `MasterKeyEntity`, the external record owned by
the Encryption Service (`types.ts` is outside the provided sources): the
encrypted-content fields (`content`, `encryption_method`) plus
representative metadata fields this core never touches. -/
structure MasterKeyEntity where
  id : Option String
  content : Option Msg
  encryption_method : Option EncryptionMethod
  created_time : Option Nat
  updated_time : Option Nat
  source_application : Option String
  deriving DecidableEq, Repr

/-- Modelled from the spec: the record of newly produced encrypted-content
fields returned by `encryptMasterKeyContent`, later spread over the original
entity. -/
structure NewContent where
  content : Msg
  encryption_method : EncryptionMethod
  deriving DecidableEq, Repr

/-- The spread `\x7b ...masterKey, ...newContent \x7d`. -/
def mergeNewContent (masterKey : MasterKeyEntity) (newContent : NewContent) :
    MasterKeyEntity :=
  { masterKey with
    content := some newContent.content
    encryption_method := some newContent.encryption_method }

/-- Modelled from the spec: the Encryption Service's default symmetric
master-key method, used when the method argument is `null`. -/
def defaultMasterKeyEncryptionMethod : EncryptionMethod := .SJCL1a

/-- Modelled from the spec: `decryptMasterKeyContent(masterKey, password,
options)` (`EncryptionService.ts` is outside the provided sources).  A custom
handler in `options` overrides the password-based scheme; otherwise the
content is symmetrically decrypted with the entity's recorded method and the
password. -/
def decryptMasterKeyContentS (masterKey : MasterKeyEntity) (password : String)
    (handler : Option HandlerContext) : Except PpkError String :=
  match masterKey.content with
  | none => .error .masterKeyContentMissing
  | some content =>
    match handler with
    | some h => handlerDecrypt h content
    | none =>
      (serviceDecrypt
        (masterKey.encryption_method.getD defaultMasterKeyEncryptionMethod)
        password content).map Msg.toUtf8

/-- Modelled from the spec: `encryptMasterKeyContent(method, plaintext,
password, options)`.  A custom handler in `options` overrides the
password-based scheme; a `null` method selects the service default. -/
def encryptMasterKeyContentS (method : Option EncryptionMethod)
    (plainText : String) (password : String) (handler : Option HandlerContext) :
    Except PpkError NewContent :=
  match handler with
  | some h => do
    let e ← handlerEncrypt h plainText
    return { content := e, encryption_method := method.getD .Custom }
  | none =>
    let m := method.getD defaultMasterKeyEncryptionMethod
    .ok { content := serviceEncrypt m password (.str plainText)
          encryption_method := m }

/-- Modelled from the spec: `reencryptMasterKey(masterKey, password,
decryptOptions, encryptOptions)`: decrypts with the decrypt-side options,
re-encrypts with the encrypt-side options, and returns the original fields
merged with the new content fields. -/
def reencryptMasterKeyS (masterKey : MasterKeyEntity) (password : String)
    (decryptHandler : Option HandlerContext)
    (encryptHandler : Option HandlerContext) : Except PpkError MasterKeyEntity := do
  let plainText ← decryptMasterKeyContentS masterKey password decryptHandler
  let method : Option EncryptionMethod :=
    if encryptHandler.isSome then some .Custom else none
  let newContent ← encryptMasterKeyContentS method plainText password encryptHandler
  return mergeNewContent masterKey newContent

/-- `ppkDecryptMasterKeyContent(service, masterKey, ppk, password)`. -/
def ppkDecryptMasterKeyContent (masterKey : MasterKeyEntity)
    (ppk : PublicPrivateKeyPair) (password : String) : Except PpkError String := do
  let nodeRSA ← loadPpk ppk password
  let handler : HandlerContext := { nodeRSA := nodeRSA, ppkId := ppk.id }
  decryptMasterKeyContentS masterKey "" (some handler)

/-- `reencryptFromPasswordToPublicKey(service, masterKey, decryptionPassword,
encryptionPublicKey)`. -/
def reencryptFromPasswordToPublicKey (masterKey : MasterKeyEntity)
    (decryptionPassword : String) (encryptionPublicKey : PublicPrivateKeyPair) :
    Except PpkError MasterKeyEntity := do
  let rsa ← loadPublicKey encryptionPublicKey.publicKey
  let encryptionHandler : HandlerContext :=
    { nodeRSA := rsa, ppkId := encryptionPublicKey.id }
  let plainText ← decryptMasterKeyContentS masterKey decryptionPassword none
  let newContent ←
    encryptMasterKeyContentS (some .Custom) plainText "" (some encryptionHandler)
  return mergeNewContent masterKey newContent

/-- `reencryptFromPublicKeyToPassword(service, masterKey, decryptionPpk,
decryptionPassword, encryptionPassword)`. -/
def reencryptFromPublicKeyToPassword (masterKey : MasterKeyEntity)
    (decryptionPpk : PublicPrivateKeyPair) (decryptionPassword : String)
    (encryptionPassword : String) : Except PpkError MasterKeyEntity := do
  let rsa ← loadPpk decryptionPpk decryptionPassword
  let decryptionHandler : HandlerContext :=
    { nodeRSA := rsa, ppkId := decryptionPpk.id }
  let plainText ← decryptMasterKeyContentS masterKey "" (some decryptionHandler)
  let newContent ← encryptMasterKeyContentS none plainText encryptionPassword none
  return mergeNewContent masterKey newContent

/-- `ppkReencryptMasterKey(service, masterKey, decryptionPpk,
decryptionPassword, encryptionPublicKey)`. -/
def ppkReencryptMasterKey (masterKey : MasterKeyEntity)
    (decryptionPpk : PublicPrivateKeyPair) (decryptionPassword : String)
    (encryptionPublicKey : PublicPrivateKeyPair) : Except PpkError MasterKeyEntity := do
  let encRsa ← loadPublicKey encryptionPublicKey.publicKey
  let encryptionHandler : HandlerContext :=
    { nodeRSA := encRsa, ppkId := encryptionPublicKey.id }
  let decRsa ← loadPpk decryptionPpk decryptionPassword
  let decryptionHandler : HandlerContext :=
    { nodeRSA := decRsa, ppkId := decryptionPpk.id }
  reencryptMasterKeyS masterKey "" (some decryptionHandler) (some encryptionHandler)

/-- Modelled from the spec: `SyncInfo` (`syncInfoUtils.ts` is outside the
provided sources) — at most one active KeyPair reference plus the set of
known master keys and the active master key id. -/
structure SyncInfo where
  ppk : Option PublicPrivateKeyPair
  masterKeys : List MasterKeyEntity
  activeMasterKeyId : Option String
  deriving DecidableEq, Repr

/-- Modelled from the spec: `getActiveMasterKey(localInfo)` — the known
master key matching the active id, when any. -/
def getActiveMasterKeyS (info : SyncInfo) : Option MasterKeyEntity :=
  match info.activeMasterKeyId with
  | none => none
  | some activeId => info.masterKeys.find? (fun mk => mk.id = some activeId)

/-- Modelled from the spec: `getMasterPassword(throwIfNotSet)` (`utils.ts` is
outside the provided sources) — returns the cached master password setting
(`""` when unset); with `throwIfNotSet` it throws instead of returning an
unset password. -/
def getMasterPasswordS (masterPassword : String) (throwIfNotSet : Bool) :
    Except PpkError String :=
  if masterPassword = "" ∧ throwIfNotSet then .error .masterPasswordNotSet
  else .ok masterPassword

/-- The ambient collaborators of the generation path: the asymmetric
provider, the fresh id and timestamp, and the cached master password. -/
structure PpkEnv where
  provider : AsymProvider
  freshId : String
  now : Nat
  masterPassword : String

/-- The observable outcome of `setPpkIfNotExist`: the (possibly updated)
local sync info and the list of `saveLocalSyncInfo` calls made, in order. -/
structure SetPpkResult where
  localInfo : SyncInfo
  saved : List SyncInfo
  deriving DecidableEq, Repr

/-- `generateKeyPairAndSave(service, localInfo, password)`: generates,
assigns the result to `localInfo.ppk`, and calls `saveLocalSyncInfo`. -/
def generateKeyPairAndSave (env : PpkEnv) (localInfo : SyncInfo)
    (password : String) : Except PpkError (SetPpkResult × PublicPrivateKeyPair) := do
  let ppk ← generateKeyPair env.provider env.freshId env.now password
  let newInfo := { localInfo with ppk := some ppk }
  return ({ localInfo := newInfo, saved := [newInfo] }, ppk)

/-- `setPpkIfNotExist(service, localInfo, remoteInfo)`. -/
def setPpkIfNotExist (env : PpkEnv) (localInfo remoteInfo : SyncInfo) :
    Except PpkError SetPpkResult :=
  if localInfo.ppk.isSome ∨ remoteInfo.ppk.isSome then
    .ok { localInfo := localInfo, saved := [] }
  else
    match getActiveMasterKeyS localInfo with
    | none => .ok { localInfo := localInfo, saved := [] }
    | some _ =>
      match getMasterPasswordS env.masterPassword false with
      | .error e => .error e
      | .ok password =>
        if password = "" then .ok { localInfo := localInfo, saved := [] }
        else do
          let password2 ← getMasterPasswordS env.masterPassword true
          let (result, _) ← generateKeyPairAndSave env localInfo password2
          return result

theorem exceptBind_ok {α β : Type} {x : Except PpkError α}
    {f : α → Except PpkError β} {b : β}
    (h : (x >>= f) = .ok b) : ∃ a, x = .ok a ∧ f a = .ok b := by
  cases x with
  | error e => simp [Bind.bind, Except.bind] at h
  | ok a => exact ⟨a, rfl, by simpa [Bind.bind, Except.bind] using h⟩

theorem loadPpk_ok_shape {ppk : PublicPrivateKeyPair} {password : String}
    {rsa : NodeRSA} (h : loadPpk ppk password = .ok rsa) :
    ∃ kid, rsa = { priv := some kid, pub := some kid } := by
  unfold loadPpk at h
  obtain ⟨k1, h1, h⟩ := exceptBind_ok h
  obtain ⟨pem, h2, h⟩ := exceptBind_ok h
  unfold NodeRSA.importKeyM at h
  cases pem <;> simp at h
  exact ⟨_, h.symm⟩

/-- C10: `ppkPasswordIsValid` on an undefined/null key pair throws
'PPK is undefined' rather than returning false. -/
theorem c10_undefined_ppk_throws (password : String) :
    ppkPasswordIsValid none password = .error .ppkUndefined := rfl

/-- C1: decrypting with the handler of `k2` an envelope produced by the
handler of `k1` fails, whenever `k1.id ≠ k2.id`, with a key-mismatch error
carrying both the envelope's embedded id and the handler's own id; and the
result for a mismatched envelope is the same for every embedded ciphertext —
even an undecryptable one — so decryption of the ciphertext is never
attempted. -/
theorem c1_key_mismatch (rsa1 rsa2 : NodeRSA) (id1 id2 : String)
    (scheme : Option String) (ct : Msg) (b : String) (e : Msg)
    (hne : id1 ≠ id2)
    (henc : handlerEncrypt ⟨rsa1, id1⟩ b = .ok e) :
    handlerDecrypt ⟨rsa2, id2⟩ e = .error (.keyMismatch (some id1) id2) ∧
    handlerDecrypt ⟨rsa2, id2⟩ (.jsonEnv (some id1) scheme ct) =
      .error (.keyMismatch (some id1) id2) := by
  have hid : (some id1 ≠ some id2) := by simpa using hne
  constructor
  · unfold handlerEncrypt at henc
    obtain ⟨ct2, hct, he⟩ := exceptBind_ok henc
    simp [pure, Except.pure] at he
    subst he
    simp [handlerDecrypt, hid]
  · simp [handlerDecrypt, hid]

theorem c1_key_mismatch_witness :
    handlerDecrypt ⟨⟨some 1, some 1⟩, "k2"⟩
        (.jsonEnv (some "k1") (some "pkcs1_oaep") (.rsaEnc 1 (.str "48656c6c6f"))) =
      .error (.keyMismatch (some "k1") "k2") ∧
    handlerDecrypt ⟨⟨some 1, some 1⟩, "k2"⟩
        (.jsonEnv (some "k1") (some "pkcs1_oaep") (.str "garbage")) =
      .error (.keyMismatch (some "k1") "k2") :=
  c1_key_mismatch ⟨some 1, some 1⟩ ⟨some 1, some 1⟩ "k1" "k2"
    (some "pkcs1_oaep") (.str "garbage") "48656c6c6f"
    (.jsonEnv (some "k1") (some "pkcs1_oaep") (.rsaEnc 1 (.str "48656c6c6f")))
    (by decide) rfl

/-- C2: for every hex byte string `b` and key pair loaded with its password,
decrypting with the key pair's handler the envelope produced by encrypting
`b` with the same handler returns `b`. -/
theorem c2_handler_roundtrip (ppk : PublicPrivateKeyPair) (password : String)
    (rsa : NodeRSA) (b : String)
    (hload : loadPpk ppk password = .ok rsa) :
    (handlerEncrypt ⟨rsa, ppk.id⟩ b) >>= (handlerDecrypt ⟨rsa, ppk.id⟩) =
      .ok b := by
  obtain ⟨kid, rfl⟩ := loadPpk_ok_shape hload
  simp [handlerEncrypt, handlerDecrypt, NodeRSA.encryptM, NodeRSA.decryptM,
    Bind.bind, Except.bind, pure, Except.pure, Except.map, Msg.toUtf8]

theorem c2_handler_roundtrip_witness :
    (handlerEncrypt ⟨⟨some 1, some 1⟩, "ppk1"⟩ "48656c6c6f") >>=
        (handlerDecrypt ⟨⟨some 1, some 1⟩, "ppk1"⟩) = .ok "48656c6c6f" :=
  c2_handler_roundtrip
    { id := "ppk1"
      publicKey := .pubPem 1
      privateKey := { encryptionMethod := .SJCL4
                      ciphertext := .symEnc .SJCL4 "abc123" (.privPem 1) }
      createdTime := 0 }
    "abc123" ⟨some 1, some 1⟩ "48656c6c6f" rfl

/-- C6: every envelope produced by the handler of a key pair is the
serialized structure with exactly a `ppkId` field equal to the key pair's
id, the scheme tag, and the RSA ciphertext of the input. -/
theorem c6_envelope_shape (ppk : PublicPrivateKeyPair) (rsa : NodeRSA)
    (b : String) (e : Msg)
    (henc : handlerEncrypt ⟨rsa, ppk.id⟩ b = .ok e) :
    ∃ ct, e = .jsonEnv (some ppk.id) (some nodeRSAEncryptionScheme) ct ∧
      rsa.encryptM (.str b) = .ok ct := by
  unfold handlerEncrypt at henc
  obtain ⟨ct, hct, he⟩ := exceptBind_ok henc
  simp [pure, Except.pure] at he
  exact ⟨ct, he.symm, hct⟩

theorem c6_envelope_shape_witness :
    ∃ ct, (Msg.jsonEnv (some "ppk1") (some nodeRSAEncryptionScheme)
        (.rsaEnc 1 (.str "48656c6c6f"))) =
      .jsonEnv (some "ppk1") (some nodeRSAEncryptionScheme) ct ∧
      NodeRSA.encryptM ⟨some 1, some 1⟩ (.str "48656c6c6f") = .ok ct :=
  c6_envelope_shape
    { id := "ppk1"
      publicKey := .pubPem 1
      privateKey := { encryptionMethod := .SJCL4
                      ciphertext := .symEnc .SJCL4 "abc123" (.privPem 1) }
      createdTime := 0 }
    ⟨some 1, some 1⟩ "48656c6c6f" _ rfl

theorem exceptMap_eq_error {α β : Type} {x : Except PpkError α} {f : α → β}
    {e : PpkError} (h : x.map f = .error e) : x = .error e := by
  cases x with
  | error a => simpa [Except.map] using h
  | ok v => simp [Except.map] at h

theorem decryptM_no_keyMismatch (k : NodeRSA) (ct : Msg) (eid : Option String)
    (hid : String) : k.decryptM ct ≠ .error (.keyMismatch eid hid) := by
  unfold NodeRSA.decryptM
  rcases k with ⟨_ | kid, pub⟩ <;> cases ct <;> simp
  split <;> simp

/-- C9: the handler's decrypt raises a key-mismatch error exactly when the
parsed envelope's `ppkId` differs from the handler's id; the scheme field is
never inspected (the result is identical for any two scheme tags, present or
absent); and when the `ppkId` matches, the embedded ciphertext is passed to
asymmetric decryption. -/
theorem c9_scheme_not_inspected (context : HandlerContext)
    (pid : Option String) (s s2 : Option String) (ct : Msg) :
    ((∃ eid hid, handlerDecrypt context (.jsonEnv pid s ct) =
        .error (.keyMismatch eid hid)) ↔ pid ≠ some context.ppkId) ∧
    handlerDecrypt context (.jsonEnv pid s ct) =
      handlerDecrypt context (.jsonEnv pid s2 ct) ∧
    (pid = some context.ppkId →
      handlerDecrypt context (.jsonEnv pid s ct) =
        (context.nodeRSA.decryptM ct).map Msg.toUtf8) := by
  refine ⟨⟨fun hmis => ?_, fun hne => ?_⟩, ?_, fun heq => ?_⟩
  · by_contra heq
    obtain ⟨eid, hid, hmis⟩ := hmis
    simp only [handlerDecrypt, heq, ne_eq, not_true_eq_false, if_false] at hmis
    exact decryptM_no_keyMismatch context.nodeRSA ct eid hid
      (exceptMap_eq_error hmis)
  · exact ⟨pid, context.ppkId, by simp [handlerDecrypt, hne]⟩
  · by_cases hne : pid = some context.ppkId <;> simp [handlerDecrypt, hne]
  · simp [handlerDecrypt, heq]

theorem c9_scheme_not_inspected_witness :
    ((∃ eid hid, handlerDecrypt ⟨⟨some 1, some 1⟩, "ppk1"⟩
        (.jsonEnv (some "ppk1") (some "weird-scheme")
          (.rsaEnc 1 (.str "48656c6c6f"))) =
        .error (.keyMismatch eid hid)) ↔
      (some "ppk1" : Option String) ≠ some "ppk1") ∧
    handlerDecrypt ⟨⟨some 1, some 1⟩, "ppk1"⟩
        (.jsonEnv (some "ppk1") (some "weird-scheme")
          (.rsaEnc 1 (.str "48656c6c6f"))) =
      handlerDecrypt ⟨⟨some 1, some 1⟩, "ppk1"⟩
        (.jsonEnv (some "ppk1") none (.rsaEnc 1 (.str "48656c6c6f"))) ∧
    ((some "ppk1" : Option String) = some "ppk1" →
      handlerDecrypt ⟨⟨some 1, some 1⟩, "ppk1"⟩
          (.jsonEnv (some "ppk1") (some "weird-scheme")
            (.rsaEnc 1 (.str "48656c6c6f"))) =
        (NodeRSA.decryptM ⟨some 1, some 1⟩
          (.rsaEnc 1 (.str "48656c6c6f"))).map Msg.toUtf8) :=
  c9_scheme_not_inspected ⟨⟨some 1, some 1⟩, "ppk1"⟩ (some "ppk1")
    (some "weird-scheme") none (.rsaEnc 1 (.str "48656c6c6f"))

/-- C3: validating the password of a freshly generated key pair with the
generation password returns true; and whenever decryption of the stored
private key fails, `ppkPasswordIsValid` returns false instead of propagating
the error. -/
theorem c3_validate_password (provider : AsymProvider) (freshId : String)
    (now : Nat) (p : String) (ppk ppk2 : PublicPrivateKeyPair) (q : String)
    (e : PpkError)
    (hgen : generateKeyPair provider freshId now p = .ok ppk)
    (hdec : decryptPrivateKey ppk2.privateKey q = .error e) :
    ppkPasswordIsValid (some ppk) p = .ok true ∧
    ppkPasswordIsValid (some ppk2) q = .ok false := by
  constructor
  · unfold generateKeyPair at hgen
    rcases hk : provider.genKeyPair 2048 65537 with ⟨_ | kid, _ | kid2⟩ <;>
      rw [hk] at hgen <;>
      simp [NodeRSA.isPrivate, NodeRSA.isPublic, NodeRSA.exportKeyM,
        Bind.bind, Except.bind, pure, Except.pure] at hgen
    subst hgen
    simp [ppkPasswordIsValid, loadPpk, decryptPrivateKey, serviceDecrypt,
      encryptPrivateKey, serviceEncrypt, NodeRSA.importKeyM, NodeRSA.empty,
      Bind.bind, Except.bind]
  · have hload : ∃ e2, loadPpk ppk2 q = .error e2 := by
      unfold loadPpk
      cases himp : NodeRSA.empty.importKeyM ppk2.publicKey .pkcs1PublicPem with
      | error e2 => exact ⟨e2, by simp [Bind.bind, Except.bind, himp]⟩
      | ok k1 => exact ⟨e, by simp [Bind.bind, Except.bind, himp, hdec]⟩
    obtain ⟨e2, hload⟩ := hload
    simp [ppkPasswordIsValid, hload]

theorem c3_validate_password_witness :
    ppkPasswordIsValid
        (some { id := "id1"
                publicKey := .pubPem 1
                privateKey := { encryptionMethod := .SJCL4
                                ciphertext := .symEnc .SJCL4 "abc123" (.privPem 1) }
                createdTime := 0 }) "abc123" = .ok true ∧
    ppkPasswordIsValid
        (some { id := "id1"
                publicKey := .pubPem 1
                privateKey := { encryptionMethod := .SJCL4
                                ciphertext := .symEnc .SJCL4 "abc123" (.privPem 1) }
                createdTime := 0 }) "wrong" = .ok false :=
  c3_validate_password ⟨fun _ _ => ⟨some 1, some 1⟩⟩ "id1" 0 "abc123"
    { id := "id1"
      publicKey := .pubPem 1
      privateKey := { encryptionMethod := .SJCL4
                      ciphertext := .symEnc .SJCL4 "abc123" (.privPem 1) }
      createdTime := 0 }
    { id := "id1"
      publicKey := .pubPem 1
      privateKey := { encryptionMethod := .SJCL4
                      ciphertext := .symEnc .SJCL4 "abc123" (.privPem 1) }
      createdTime := 0 }
    "wrong" .decryptionFailed rfl rfl

/-- C4: `generateKeyPair` requests a 2048-bit pair with exponent 65537 from
the provider (and depends on nothing else of the provider); fails with the
key-generation errors when the provider yields no private or no public
component; and otherwise returns, with no other effect, the structure whose
`privateKey` is the password-encrypted private export tagged with the
encryption method used. -/
theorem c4_generate_key_pair (provider provider2 : AsymProvider)
    (freshId : String) (now : Nat) (password : String) :
    ((provider.genKeyPair 2048 65537).isPrivate = false →
      generateKeyPair provider freshId now password =
        .error .noPrivateKeyGenerated) ∧
    ((provider.genKeyPair 2048 65537).isPrivate = true →
      (provider.genKeyPair 2048 65537).isPublic = false →
      generateKeyPair provider freshId now password =
        .error .noPublicKeyGenerated) ∧
    (∀ kid kid2, (provider.genKeyPair 2048 65537).priv = some kid →
      (provider.genKeyPair 2048 65537).pub = some kid2 →
      generateKeyPair provider freshId now password = .ok
        { id := freshId
          publicKey := .pubPem kid2
          privateKey := encryptPrivateKey password (.privPem kid)
          createdTime := now }) ∧
    (provider2.genKeyPair 2048 65537 = provider.genKeyPair 2048 65537 →
      generateKeyPair provider2 freshId now password =
        generateKeyPair provider freshId now password) := by
  refine ⟨fun h1 => ?_, fun h1 h2 => ?_, fun kid kid2 hpriv hpub => ?_,
    fun hsame => ?_⟩
  · simp [generateKeyPair, h1]
  · simp [generateKeyPair, h1, h2]
  · simp [generateKeyPair, NodeRSA.isPrivate, NodeRSA.isPublic, hpriv, hpub,
      NodeRSA.exportKeyM, Bind.bind, Except.bind, pure, Except.pure]
  · unfold generateKeyPair
    rw [hsame]

theorem c4_generate_key_pair_witness :
    generateKeyPair ⟨fun _ _ => ⟨none, some 1⟩⟩ "id1" 7 "pw" =
      .error .noPrivateKeyGenerated ∧
    generateKeyPair ⟨fun _ _ => ⟨some 1, none⟩⟩ "id1" 7 "pw" =
      .error .noPublicKeyGenerated ∧
    generateKeyPair ⟨fun _ _ => ⟨some 1, some 1⟩⟩ "id1" 7 "pw" = .ok
      { id := "id1"
        publicKey := .pubPem 1
        privateKey := encryptPrivateKey "pw" (.privPem 1)
        createdTime := 7 } :=
  ⟨(c4_generate_key_pair ⟨fun _ _ => ⟨none, some 1⟩⟩
      ⟨fun _ _ => ⟨none, some 1⟩⟩ "id1" 7 "pw").1 rfl,
   (c4_generate_key_pair ⟨fun _ _ => ⟨some 1, none⟩⟩
      ⟨fun _ _ => ⟨some 1, none⟩⟩ "id1" 7 "pw").2.1 rfl rfl,
   (c4_generate_key_pair ⟨fun _ _ => ⟨some 1, some 1⟩⟩
      ⟨fun _ _ => ⟨some 1, some 1⟩⟩ "id1" 7 "pw").2.2.1 1 1 rfl rfl⟩

theorem reencryptFromPasswordToPublicKey_ok_shape {mk : MasterKeyEntity}
    {p : String} {ppk : PublicPrivateKeyPair} {r : MasterKeyEntity}
    (h : reencryptFromPasswordToPublicKey mk p ppk = .ok r) :
    ∃ nc, r = mergeNewContent mk nc := by
  unfold reencryptFromPasswordToPublicKey at h
  obtain ⟨rsa, h1, h⟩ := exceptBind_ok h
  obtain ⟨plain, h2, h⟩ := exceptBind_ok h
  obtain ⟨nc, h3, h⟩ := exceptBind_ok h
  simp [pure, Except.pure] at h
  exact ⟨nc, h.symm⟩

theorem reencryptFromPublicKeyToPassword_ok_shape {mk : MasterKeyEntity}
    {ppk : PublicPrivateKeyPair} {p q : String} {r : MasterKeyEntity}
    (h : reencryptFromPublicKeyToPassword mk ppk p q = .ok r) :
    ∃ nc, r = mergeNewContent mk nc := by
  unfold reencryptFromPublicKeyToPassword at h
  obtain ⟨rsa, h1, h⟩ := exceptBind_ok h
  obtain ⟨plain, h2, h⟩ := exceptBind_ok h
  obtain ⟨nc, h3, h⟩ := exceptBind_ok h
  simp [pure, Except.pure] at h
  exact ⟨nc, h.symm⟩

theorem ppkReencryptMasterKey_ok_shape {mk : MasterKeyEntity}
    {ppk ppk2 : PublicPrivateKeyPair} {p : String} {r : MasterKeyEntity}
    (h : ppkReencryptMasterKey mk ppk p ppk2 = .ok r) :
    ∃ nc, r = mergeNewContent mk nc := by
  unfold ppkReencryptMasterKey at h
  obtain ⟨encRsa, h1, h⟩ := exceptBind_ok h
  obtain ⟨decRsa, h2, h⟩ := exceptBind_ok h
  unfold reencryptMasterKeyS at h
  obtain ⟨plain, h3, h⟩ := exceptBind_ok h
  obtain ⟨nc, h4, h⟩ := exceptBind_ok h
  simp [pure, Except.pure] at h
  exact ⟨nc, h.symm⟩

/-- The metadata fields this core never rewrites are carried over unchanged
from the original entity to its replacement. -/
def preservesMeta (r mk : MasterKeyEntity) : Prop :=
  r.id = mk.id ∧ r.created_time = mk.created_time ∧
    r.updated_time = mk.updated_time ∧
    r.source_application = mk.source_application

/-- C7: each of the three re-encryption operations returns, on success, a
replacement entity in which every field of the original that is not among
the newly produced encrypted-content fields (`content`,
`encryption_method`) is unchanged; the embedding is pure, so the input
entity itself is never mutated. -/
theorem c7_reencrypt_frame (mkA mkB mkC rA rB rC : MasterKeyEntity)
    (pA pB qB pC : String) (ppkA ppkB ppkC ppkC2 : PublicPrivateKeyPair)
    (h1 : reencryptFromPasswordToPublicKey mkA pA ppkA = .ok rA)
    (h2 : reencryptFromPublicKeyToPassword mkB ppkB pB qB = .ok rB)
    (h3 : ppkReencryptMasterKey mkC ppkC pC ppkC2 = .ok rC) :
    preservesMeta rA mkA ∧ preservesMeta rB mkB ∧ preservesMeta rC mkC := by
  obtain ⟨ncA, rfl⟩ := reencryptFromPasswordToPublicKey_ok_shape h1
  obtain ⟨ncB, rfl⟩ := reencryptFromPublicKeyToPassword_ok_shape h2
  obtain ⟨ncC, rfl⟩ := ppkReencryptMasterKey_ok_shape h3
  simp [preservesMeta, mergeNewContent]

/-- C5: re-encrypting a password-protected master key to a public key and
then back to a (new) password yields a master key whose content decrypts to
the original content under the new password. -/
theorem c5_reencrypt_symmetry (mk : MasterKeyEntity) (c p q pk : String)
    (kid : Nat) (ppk : PublicPrivateKeyPair) (m : EncryptionMethod)
    (hpub : ppk.publicKey = .pubPem kid)
    (hpriv : ppk.privateKey =
      { encryptionMethod := .SJCL4
        ciphertext := .symEnc .SJCL4 pk (.privPem kid) })
    (hcontent : mk.content = some (.symEnc m p (.str c)))
    (hmethod : mk.encryption_method = some m) :
    ∃ mk1 mk2,
      reencryptFromPasswordToPublicKey mk p ppk = .ok mk1 ∧
      reencryptFromPublicKeyToPassword mk1 ppk pk q = .ok mk2 ∧
      decryptMasterKeyContentS mk2 q none = .ok c := by
  have h1 : reencryptFromPasswordToPublicKey mk p ppk = .ok
      (mergeNewContent mk
        { content := .jsonEnv (some ppk.id) (some nodeRSAEncryptionScheme)
            (.rsaEnc kid (.str c))
          encryption_method := .Custom }) := by
    simp [reencryptFromPasswordToPublicKey, loadPublicKey, NodeRSA.importKeyM,
      NodeRSA.empty, hpub, decryptMasterKeyContentS, hcontent, hmethod,
      serviceDecrypt, Msg.toUtf8, Except.map, encryptMasterKeyContentS,
      handlerEncrypt, NodeRSA.encryptM, Bind.bind, Except.bind, pure,
      Except.pure]
  have h2 : reencryptFromPublicKeyToPassword
      (mergeNewContent mk
        { content := .jsonEnv (some ppk.id) (some nodeRSAEncryptionScheme)
            (.rsaEnc kid (.str c))
          encryption_method := .Custom }) ppk pk q = .ok
      (mergeNewContent
        (mergeNewContent mk
          { content := .jsonEnv (some ppk.id) (some nodeRSAEncryptionScheme)
              (.rsaEnc kid (.str c))
            encryption_method := .Custom })
        { content := .symEnc defaultMasterKeyEncryptionMethod q (.str c)
          encryption_method := defaultMasterKeyEncryptionMethod }) := by
    simp [reencryptFromPublicKeyToPassword, loadPpk, NodeRSA.importKeyM,
      NodeRSA.empty, hpub, hpriv, decryptPrivateKey, serviceDecrypt,
      decryptMasterKeyContentS, mergeNewContent, handlerDecrypt,
      NodeRSA.decryptM, Msg.toUtf8, Except.map, encryptMasterKeyContentS,
      serviceEncrypt, Bind.bind, Except.bind, pure, Except.pure]
  refine ⟨_, _, h1, h2, ?_⟩
  simp [decryptMasterKeyContentS, mergeNewContent, serviceDecrypt,
    Msg.toUtf8, Except.map]

theorem c5_reencrypt_symmetry_witness :
    ∃ mk1 mk2,
      reencryptFromPasswordToPublicKey
          { id := some "mk1"
            content := some (.symEnc .SJCL1a "p" (.str "sec"))
            encryption_method := some .SJCL1a
            created_time := some 1
            updated_time := some 2
            source_application := some "app" } "p"
          { id := "pa"
            publicKey := .pubPem 1
            privateKey := { encryptionMethod := .SJCL4
                            ciphertext := .symEnc .SJCL4 "pw" (.privPem 1) }
            createdTime := 0 } = .ok mk1 ∧
      reencryptFromPublicKeyToPassword mk1
          { id := "pa"
            publicKey := .pubPem 1
            privateKey := { encryptionMethod := .SJCL4
                            ciphertext := .symEnc .SJCL4 "pw" (.privPem 1) }
            createdTime := 0 } "pw" "newpw" = .ok mk2 ∧
      decryptMasterKeyContentS mk2 "newpw" none = .ok "sec" :=
  c5_reencrypt_symmetry
    { id := some "mk1"
      content := some (.symEnc .SJCL1a "p" (.str "sec"))
      encryption_method := some .SJCL1a
      created_time := some 1
      updated_time := some 2
      source_application := some "app" }
    "sec" "p" "newpw" "pw" 1
    { id := "pa"
      publicKey := .pubPem 1
      privateKey := { encryptionMethod := .SJCL4
                      ciphertext := .symEnc .SJCL4 "pw" (.privPem 1) }
      createdTime := 0 }
    .SJCL1a rfl rfl rfl rfl

theorem c7_reencrypt_frame_witness :
    preservesMeta
      { id := some "mk1"
        content := some (.jsonEnv (some "pa") (some "pkcs1_oaep")
          (.rsaEnc 1 (.str "sec")))
        encryption_method := some .Custom
        created_time := some 1
        updated_time := some 2
        source_application := some "app" }
      { id := some "mk1"
        content := some (.symEnc .SJCL1a "p" (.str "sec"))
        encryption_method := some .SJCL1a
        created_time := some 1
        updated_time := some 2
        source_application := some "app" } ∧
    preservesMeta
      { id := some "mk2"
        content := some (.symEnc .SJCL1a "newpw" (.str "sec"))
        encryption_method := some .SJCL1a
        created_time := some 3
        updated_time := some 4
        source_application := none }
      { id := some "mk2"
        content := some (.jsonEnv (some "pb") (some "pkcs1_oaep")
          (.rsaEnc 2 (.str "sec")))
        encryption_method := some .Custom
        created_time := some 3
        updated_time := some 4
        source_application := none } ∧
    preservesMeta
      { id := some "mk3"
        content := some (.jsonEnv (some "pc2") (some "pkcs1_oaep")
          (.rsaEnc 4 (.str "sec")))
        encryption_method := some .Custom
        created_time := some 5
        updated_time := some 6
        source_application := none }
      { id := some "mk3"
        content := some (.jsonEnv (some "pc") (some "pkcs1_oaep")
          (.rsaEnc 3 (.str "sec")))
        encryption_method := some .Custom
        created_time := some 5
        updated_time := some 6
        source_application := none } :=
  c7_reencrypt_frame
    { id := some "mk1"
      content := some (.symEnc .SJCL1a "p" (.str "sec"))
      encryption_method := some .SJCL1a
      created_time := some 1
      updated_time := some 2
      source_application := some "app" }
    { id := some "mk2"
      content := some (.jsonEnv (some "pb") (some "pkcs1_oaep")
        (.rsaEnc 2 (.str "sec")))
      encryption_method := some .Custom
      created_time := some 3
      updated_time := some 4
      source_application := none }
    { id := some "mk3"
      content := some (.jsonEnv (some "pc") (some "pkcs1_oaep")
        (.rsaEnc 3 (.str "sec")))
      encryption_method := some .Custom
      created_time := some 5
      updated_time := some 6
      source_application := none }
    { id := some "mk1"
      content := some (.jsonEnv (some "pa") (some "pkcs1_oaep")
        (.rsaEnc 1 (.str "sec")))
      encryption_method := some .Custom
      created_time := some 1
      updated_time := some 2
      source_application := some "app" }
    { id := some "mk2"
      content := some (.symEnc .SJCL1a "newpw" (.str "sec"))
      encryption_method := some .SJCL1a
      created_time := some 3
      updated_time := some 4
      source_application := none }
    { id := some "mk3"
      content := some (.jsonEnv (some "pc2") (some "pkcs1_oaep")
        (.rsaEnc 4 (.str "sec")))
      encryption_method := some .Custom
      created_time := some 5
      updated_time := some 6
      source_application := none }
    "p" "pw" "newpw" "pw"
    { id := "pa"
      publicKey := .pubPem 1
      privateKey := { encryptionMethod := .SJCL4
                      ciphertext := .symEnc .SJCL4 "pw" (.privPem 1) }
      createdTime := 0 }
    { id := "pb"
      publicKey := .pubPem 2
      privateKey := { encryptionMethod := .SJCL4
                      ciphertext := .symEnc .SJCL4 "pw" (.privPem 2) }
      createdTime := 0 }
    { id := "pc"
      publicKey := .pubPem 3
      privateKey := { encryptionMethod := .SJCL4
                      ciphertext := .symEnc .SJCL4 "pw" (.privPem 3) }
      createdTime := 0 }
    { id := "pc2"
      publicKey := .pubPem 4
      privateKey := { encryptionMethod := .SJCL4
                      ciphertext := .symEnc .SJCL4 "pw2" (.privPem 4) }
      createdTime := 0 }
    rfl rfl rfl

/-- C8: `setPpkIfNotExist` is a no-op — it leaves `localInfo` unchanged and
calls `saveLocalSyncInfo` zero times — whenever either side already holds a
key pair, there is no active master key, or no master password is available;
in every other case (with the provider yielding a pair) it generates a new
key pair, assigns it to `localInfo.ppk`, and saves the updated `localInfo`. -/
theorem c8_set_ppk_if_not_exist (env : PpkEnv) (localInfo remoteInfo : SyncInfo) :
    ((localInfo.ppk.isSome ∨ remoteInfo.ppk.isSome ∨
        getActiveMasterKeyS localInfo = none ∨ env.masterPassword = "") →
      setPpkIfNotExist env localInfo remoteInfo =
        .ok { localInfo := localInfo, saved := [] }) ∧
    (localInfo.ppk = none → remoteInfo.ppk = none →
      getActiveMasterKeyS localInfo ≠ none → env.masterPassword ≠ "" →
      ∀ ppk, generateKeyPair env.provider env.freshId env.now
          env.masterPassword = .ok ppk →
        setPpkIfNotExist env localInfo remoteInfo =
          .ok { localInfo := { localInfo with ppk := some ppk }
                saved := [{ localInfo with ppk := some ppk }] }) := by
  constructor
  · intro h
    unfold setPpkIfNotExist
    by_cases hpk : localInfo.ppk.isSome ∨ remoteInfo.ppk.isSome
    · simp [hpk]
    · simp only [hpk, if_false]
      cases hact : getActiveMasterKeyS localInfo with
      | none => rfl
      | some mk =>
        have hmp : env.masterPassword = "" := by
          rcases h with h | h | h | h
          · exact absurd (Or.inl h) hpk
          · exact absurd (Or.inr h) hpk
          · rw [hact] at h; cases h
          · exact h
        simp [getMasterPasswordS, hmp]
  · intro hl hr hact hmp ppk hgen
    unfold setPpkIfNotExist
    rcases hact2 : getActiveMasterKeyS localInfo with _ | mk
    · exact absurd hact2 hact
    · simp [hl, hr, hact2, getMasterPasswordS, hmp, generateKeyPairAndSave,
        hgen, Bind.bind, Except.bind, pure, Except.pure]

theorem c8_set_ppk_if_not_exist_witness :
    setPpkIfNotExist
        { provider := ⟨fun _ _ => ⟨some 9, some 9⟩⟩, freshId := "fresh"
          now := 11, masterPassword := "mp" }
        { ppk := some { id := "old"
                        publicKey := .pubPem 5
                        privateKey := { encryptionMethod := .SJCL4
                                        ciphertext := .symEnc .SJCL4 "x" (.privPem 5) }
                        createdTime := 0 }
          masterKeys := [], activeMasterKeyId := none }
        { ppk := none, masterKeys := [], activeMasterKeyId := none } =
      .ok { localInfo :=
              { ppk := some { id := "old"
                              publicKey := .pubPem 5
                              privateKey := { encryptionMethod := .SJCL4
                                              ciphertext := .symEnc .SJCL4 "x" (.privPem 5) }
                              createdTime := 0 }
                masterKeys := [], activeMasterKeyId := none }
            saved := [] } ∧
    setPpkIfNotExist
        { provider := ⟨fun _ _ => ⟨some 9, some 9⟩⟩, freshId := "fresh"
          now := 11, masterPassword := "mp" }
        { ppk := none
          masterKeys := [{ id := some "mk1"
                           content := some (.symEnc .SJCL1a "p" (.str "sec"))
                           encryption_method := some .SJCL1a
                           created_time := some 1
                           updated_time := some 2
                           source_application := some "app" }]
          activeMasterKeyId := some "mk1" }
        { ppk := none, masterKeys := [], activeMasterKeyId := none } =
      .ok { localInfo :=
              { ppk := some { id := "fresh"
                              publicKey := .pubPem 9
                              privateKey := { encryptionMethod := .SJCL4
                                              ciphertext := .symEnc .SJCL4 "mp" (.privPem 9) }
                              createdTime := 11 }
                masterKeys := [{ id := some "mk1"
                                 content := some (.symEnc .SJCL1a "p" (.str "sec"))
                                 encryption_method := some .SJCL1a
                                 created_time := some 1
                                 updated_time := some 2
                                 source_application := some "app" }]
                activeMasterKeyId := some "mk1" }
            saved :=
              [{ ppk := some { id := "fresh"
                               publicKey := .pubPem 9
                               privateKey := { encryptionMethod := .SJCL4
                                               ciphertext := .symEnc .SJCL4 "mp" (.privPem 9) }
                               createdTime := 11 }
                 masterKeys := [{ id := some "mk1"
                                  content := some (.symEnc .SJCL1a "p" (.str "sec"))
                                  encryption_method := some .SJCL1a
                                  created_time := some 1
                                  updated_time := some 2
                                  source_application := some "app" }]
                 activeMasterKeyId := some "mk1" }] } :=
  ⟨(c8_set_ppk_if_not_exist
      { provider := ⟨fun _ _ => ⟨some 9, some 9⟩⟩, freshId := "fresh"
        now := 11, masterPassword := "mp" }
      { ppk := some { id := "old"
                      publicKey := .pubPem 5
                      privateKey := { encryptionMethod := .SJCL4
                                      ciphertext := .symEnc .SJCL4 "x" (.privPem 5) }
                      createdTime := 0 }
        masterKeys := [], activeMasterKeyId := none }
      { ppk := none, masterKeys := [], activeMasterKeyId := none }).1
      (Or.inl rfl),
   (c8_set_ppk_if_not_exist
      { provider := ⟨fun _ _ => ⟨some 9, some 9⟩⟩, freshId := "fresh"
        now := 11, masterPassword := "mp" }
      { ppk := none
        masterKeys := [{ id := some "mk1"
                         content := some (.symEnc .SJCL1a "p" (.str "sec"))
                         encryption_method := some .SJCL1a
                         created_time := some 1
                         updated_time := some 2
                         source_application := some "app" }]
        activeMasterKeyId := some "mk1" }
      { ppk := none, masterKeys := [], activeMasterKeyId := none }).2
      rfl rfl (by simp [getActiveMasterKeyS]) (by simp)
      { id := "fresh"
        publicKey := .pubPem 9
        privateKey := { encryptionMethod := .SJCL4
                        ciphertext := .symEnc .SJCL4 "mp" (.privPem 9) }
        createdTime := 11 }
      rfl⟩
